import Mathlib

/-!
Verification of the blackglass-sentinel decision core (`src/sentinel.py`).

The source is a small Python MCP server.  The logic under specification is:

* `assess_human_cost` — the Availability Oracle: maps the current Denver
  local hour to the string `"FATIGUE_RISK"` or `"AVAILABLE"`.  The live
  clock read (`datetime.now` in `America/Denver`) is abstracted as the
  `current_hour` parameter; everything after the clock read is translated
  verbatim.
* `active_ui_interdiction` — the Action Dispatcher: executes a named
  interdiction and reports the outcome as a string.  The two OS calls it
  makes (`subprocess.run` for the workstation lock, `subprocess.Popen` for
  the PowerShell notification) are fallible (they raise on spawn failure),
  so they are modelled as `Except String Unit` fields of an `OSEnv`
  environment.  The source wraps the lock call in `try/except` but leaves
  the notification `Popen` unprotected, which the embedding reproduces:
  a raised exception is an `Except.error` result.
* `execute_defense_protocol` — the Decision Engine / Protocol Executor:
  maps `(latency_ms, human_status)` to a returned status string, calling
  the Action Dispatcher inline in the MERCY branch.  Side effects are
  embedded as an explicit trace: the result carries the ordered list of
  interdiction types the function dispatched.  `latency_ms : float` is
  modelled as `ℚ`; every comparison the code performs is exact on the
  rationals involved.

`execute_defense_protocol_with` is the source function with its call to
`active_ui_interdiction` abstracted as a parameter `D` (the spec's Action
Dispatcher collaborator boundary); `execute_defense_protocol` instantiates
`D` with the real dispatcher, exactly as the source composes them.
-/

namespace BlackglassSentinel

/-- Protocol labels of the spec data model: the three protocols that must be
unambiguously recoverable from the output string. -/
inductive Protocol
  | WATCH
  | PAGE
  | MERCY
deriving DecidableEq

/-- Outcomes of the two OS-level calls made by `active_ui_interdiction`:
`rundll32_lock` is the `subprocess.run(["rundll32.exe", ...])` call of the
LOCK_WORKSTATION branch, `powershell_popen` is the
`subprocess.Popen(["powershell", ...])` call of the NOTIFY_RESPONDER branch.
`Except.error e` means the call raised exception `e`. -/
structure OSEnv where
  rundll32_lock : Except String Unit
  powershell_popen : Except String Unit

/-- Translation of `active_ui_interdiction` (src/sentinel.py lines 75-104).
The CLOSE_STRESS_APPS branch performs no OS call (its `subprocess.run` is
commented out in the source) and returns its success string.  The
LOCK_WORKSTATION branch wraps its OS call in `try/except`, so a raised
exception becomes a returned FAILED message.  The NOTIFY_RESPONDER branch
calls `subprocess.Popen` with no `try/except`, so a raised exception
propagates (`Except.error`); when the spawn succeeds the success string is
returned without waiting for the process.  Unknown types fall through to the
UNKNOWN message. -/
def active_ui_interdiction (env : OSEnv) (interdiction_type : String) :
    Except String String :=
  if interdiction_type = "CLOSE_STRESS_APPS" then
    Except.ok "INTERDICTION SUCCESS: Stress-inducing applications terminated. Sensory load reduced."
  else if interdiction_type = "LOCK_WORKSTATION" then
    match env.rundll32_lock with
    | Except.ok _ =>
        Except.ok "INTERDICTION SUCCESS: Workstation locked. Rest protocol enforced."
    | Except.error e =>
        Except.ok ("INTERDICTION FAILED: Could not lock workstation. Error: " ++ e)
  else if interdiction_type = "NOTIFY_RESPONDER" then
    match env.powershell_popen with
    | Except.ok _ =>
        Except.ok "INTERDICTION SUCCESS: Fatigue notification delivered to responder UI."
    | Except.error e => Except.error e
  else
    Except.ok ("UNKNOWN INTERDICTION TYPE: " ++ interdiction_type)

/-- The fixed part of the MERCY return string of `execute_defense_protocol`
(line 118); the dispatcher's result string is interpolated at the end. -/
def mercyMsg (interdiction_result : String) : String :=
  "MERCY PROTOCOL ACTIVATED: Latency breach during high fatigue risk. Auto-Rollback triggered. DO NOT PAGE ENGINEERS. "
    ++ interdiction_result

/-- The PAGE return string of `execute_defense_protocol` (line 120). -/
def pageMsg : String :=
  "PAGING PROTOCOL: Latency breach detected. Engineering responders are AVAILABLE. Paging now."

/-- The WATCH return string of `execute_defense_protocol` (line 122). -/
def watchMsg : String :=
  "WATCH PROTOCOL: System status within acceptable deviation. Monitoring entropy vectors."

/-- Translation of `execute_defense_protocol` (src/sentinel.py lines 107-122)
with the Action Dispatcher call abstracted as the parameter `D`.  The result
pairs the returned status string with the ordered trace of interdiction
types dispatched; an uncaught dispatcher exception propagates as
`Except.error` (the source has no `try/except` here). -/
def execute_defense_protocol_with (D : String → Except String String)
    (latency_ms : ℚ) (human_status : String) :
    Except String (String × List String) :=
  if latency_ms > 500 then
    if human_status = "FATIGUE_RISK" then
      match D "NOTIFY_RESPONDER" with
      | Except.ok interdiction_result =>
          Except.ok (mercyMsg interdiction_result, ["NOTIFY_RESPONDER"])
      | Except.error e => Except.error e
    else if human_status = "AVAILABLE" then
      Except.ok (pageMsg, [])
    else
      Except.ok (watchMsg, [])
  else
    Except.ok (watchMsg, [])

/-- `execute_defense_protocol` as the source composes it: the MERCY branch
calls `active_ui_interdiction` directly (line 117). -/
def execute_defense_protocol (env : OSEnv) :
    ℚ → String → Except String (String × List String) :=
  execute_defense_protocol_with (active_ui_interdiction env)

/-- Translation of `assess_human_cost` (src/sentinel.py lines 61-72) after
the clock read: `current_hour` is `datetime.now(denver_tz).hour`, a value in
0..23. -/
def assess_human_cost (current_hour : Nat) : String :=
  if 23 ≤ current_hour ∨ current_hour < 7 then "FATIGUE_RISK"
  else "AVAILABLE"

/-- Whether string `s` starts with label `p` (character-by-character). -/
def leadsWithL : List Char → List Char → Bool
  | [], _ => true
  | _ :: _, [] => false
  | p :: ps, c :: cs => p == c && leadsWithL ps cs

/-- Whether string `s` starts with label `p`. -/
def leadsWith (p s : String) : Bool := leadsWithL p.data s.data

/-- Recover the protocol label from an execution result, per the spec's
external-interface requirement that the three protocol labels be
unambiguously recoverable from the output string.  A propagated exception
carries no protocol. -/
def recoverProtocol (r : Except String (String × List String)) :
    Option Protocol :=
  match r with
  | Except.error _ => none
  | Except.ok (out, _) =>
    if leadsWith "MERCY PROTOCOL" out then some Protocol.MERCY
    else if leadsWith "PAGING PROTOCOL" out then some Protocol.PAGE
    else if leadsWith "WATCH PROTOCOL" out then some Protocol.WATCH
    else none

/-- The action trace (the record's action list) of an execution result; a
propagated exception produced no record. -/
def actionsOf (r : Except String (String × List String)) : List String :=
  match r with
  | Except.ok (_, as) => as
  | Except.error _ => []

/-- An environment in which both OS calls succeed. -/
def idleEnv : OSEnv := ⟨Except.ok (), Except.ok ()⟩

/-- An environment in which spawning the PowerShell notification process
raises (for example, the executable is not on the PATH). -/
def spawnFailEnv : OSEnv :=
  ⟨Except.ok (), Except.error "FileNotFoundError: powershell not found"⟩

lemma exec_with_mercy (D : String → Except String String) {lat : ℚ}
    {st msg : String} (hl : lat > 500) (hs : st = "FATIGUE_RISK")
    (hD : D "NOTIFY_RESPONDER" = Except.ok msg) :
    execute_defense_protocol_with D lat st
      = Except.ok (mercyMsg msg, ["NOTIFY_RESPONDER"]) := by
  subst hs
  simp [execute_defense_protocol_with, hl, hD]

lemma exec_with_page (D : String → Except String String) {lat : ℚ}
    {st : String} (hl : lat > 500) (hs : st = "AVAILABLE") :
    execute_defense_protocol_with D lat st = Except.ok (pageMsg, []) := by
  subst hs
  simp [execute_defense_protocol_with, hl]

lemma exec_with_watch_low (D : String → Except String String) {lat : ℚ}
    (st : String) (hl : lat ≤ 500) :
    execute_defense_protocol_with D lat st = Except.ok (watchMsg, []) := by
  simp [execute_defense_protocol_with, not_lt.mpr hl]

lemma exec_with_watch_other (D : String → Except String String) {lat : ℚ}
    {st : String} (hl : lat > 500) (h1 : st ≠ "FATIGUE_RISK")
    (h2 : st ≠ "AVAILABLE") :
    execute_defense_protocol_with D lat st = Except.ok (watchMsg, []) := by
  simp [execute_defense_protocol_with, hl, h1, h2]

lemma exec_with_nonmercy (D : String → Except String String) {lat : ℚ}
    {st : String} (h : lat ≤ 500 ∨ st ≠ "FATIGUE_RISK") :
    ∃ out, execute_defense_protocol_with D lat st = Except.ok (out, []) ∧
      (out = watchMsg ∨ out = pageMsg) := by
  rcases h with hl | hs
  · exact ⟨watchMsg, exec_with_watch_low D st hl, Or.inl rfl⟩
  · rcases le_or_lt lat 500 with hl | hl
    · exact ⟨watchMsg, exec_with_watch_low D st hl, Or.inl rfl⟩
    · by_cases ha : st = "AVAILABLE"
      · exact ⟨pageMsg, exec_with_page D hl ha, Or.inr rfl⟩
      · exact ⟨watchMsg, exec_with_watch_other D hl hs ha, Or.inl rfl⟩

lemma recoverProtocol_mercyMsg (msg : String) (tr : List String) :
    recoverProtocol (Except.ok (mercyMsg msg, tr)) = some Protocol.MERCY := rfl

lemma recoverProtocol_pageMsg (tr : List String) :
    recoverProtocol (Except.ok (pageMsg, tr)) = some Protocol.PAGE := rfl

lemma recoverProtocol_watchMsg (tr : List String) :
    recoverProtocol (Except.ok (watchMsg, tr)) = some Protocol.WATCH := rfl

/-- C1: for every latency and availability in the two-valued status set, the
decision logic of `execute_defense_protocol` assigns exactly one protocol by
the fixed 500ms policy: latency > 500 with FATIGUE_RISK yields MERCY,
latency > 500 with AVAILABLE yields PAGE, and latency ≤ 500 yields WATCH. -/
theorem defense_policy_fixed_threshold (D : String → Except String String)
    (latency_ms : ℚ) (availability msg : String)
    (hD : D "NOTIFY_RESPONDER" = Except.ok msg)
    (hav : availability = "AVAILABLE" ∨ availability = "FATIGUE_RISK") :
    (∃ p : Protocol,
      recoverProtocol (execute_defense_protocol_with D latency_ms availability)
        = some p) ∧
    (latency_ms > 500 → availability = "FATIGUE_RISK" →
      recoverProtocol (execute_defense_protocol_with D latency_ms availability)
        = some Protocol.MERCY) ∧
    (latency_ms > 500 → availability = "AVAILABLE" →
      recoverProtocol (execute_defense_protocol_with D latency_ms availability)
        = some Protocol.PAGE) ∧
    (latency_ms ≤ 500 →
      recoverProtocol (execute_defense_protocol_with D latency_ms availability)
        = some Protocol.WATCH) := by
  have hm : latency_ms > 500 → availability = "FATIGUE_RISK" →
      recoverProtocol (execute_defense_protocol_with D latency_ms availability)
        = some Protocol.MERCY := by
    intro hl hs
    rw [exec_with_mercy D hl hs hD, recoverProtocol_mercyMsg]
  have hp : latency_ms > 500 → availability = "AVAILABLE" →
      recoverProtocol (execute_defense_protocol_with D latency_ms availability)
        = some Protocol.PAGE := by
    intro hl hs
    rw [exec_with_page D hl hs, recoverProtocol_pageMsg]
  have hw : latency_ms ≤ 500 →
      recoverProtocol (execute_defense_protocol_with D latency_ms availability)
        = some Protocol.WATCH := by
    intro hl
    rw [exec_with_watch_low D availability hl, recoverProtocol_watchMsg]
  refine ⟨?_, hm, hp, hw⟩
  rcases le_or_lt latency_ms 500 with hl | hl
  · exact ⟨Protocol.WATCH, hw hl⟩
  · rcases hav with hs | hs
    · exact ⟨Protocol.PAGE, hp hl hs⟩
    · exact ⟨Protocol.MERCY, hm hl hs⟩

/-- Witness for `defense_policy_fixed_threshold` at latency 600 and
availability AVAILABLE with an always-succeeding dispatcher. -/
theorem defense_policy_fixed_threshold_witness :
    recoverProtocol
        (execute_defense_protocol_with (fun _ => Except.ok "ok") 600 "AVAILABLE")
      = some Protocol.PAGE :=
  (defense_policy_fixed_threshold (fun _ => Except.ok "ok") 600 "AVAILABLE" "ok"
      rfl (Or.inl rfl)).2.2.1 (by norm_num) rfl

/-- C4: latency exactly 500 resolves to WATCH for every availability (the
threshold is exclusive on the high side), while latency 500.0001 with
FATIGUE_RISK resolves to MERCY. -/
theorem threshold_boundary (D : String → Except String String)
    (availability msg : String)
    (hD : D "NOTIFY_RESPONDER" = Except.ok msg) :
    recoverProtocol (execute_defense_protocol_with D 500 availability)
      = some Protocol.WATCH ∧
    recoverProtocol (execute_defense_protocol_with D 500.0001 "FATIGUE_RISK")
      = some Protocol.MERCY := by
  constructor
  · rw [exec_with_watch_low D availability le_rfl, recoverProtocol_watchMsg]
  · rw [exec_with_mercy D (by norm_num) rfl hD, recoverProtocol_mercyMsg]

/-- Witness for `threshold_boundary` with an always-succeeding dispatcher and
availability FATIGUE_RISK. -/
theorem threshold_boundary_witness :
    recoverProtocol
        (execute_defense_protocol_with (fun _ => Except.ok "ok") 500 "FATIGUE_RISK")
      = some Protocol.WATCH ∧
    recoverProtocol
        (execute_defense_protocol_with (fun _ => Except.ok "ok") 500.0001 "FATIGUE_RISK")
      = some Protocol.MERCY :=
  threshold_boundary (fun _ => Except.ok "ok") "FATIGUE_RISK" "ok" rfl

/-- C5: every MERCY execution dispatches NOTIFY_RESPONDER exactly once, and
the record's action list contains NOTIFY_RESPONDER exactly once, whatever
message (success or failure) the dispatcher reports back. -/
theorem mercy_notifies_exactly_once (D : String → Except String String)
    (latency_ms : ℚ) (human_status msg : String) (hl : latency_ms > 500)
    (hs : human_status = "FATIGUE_RISK")
    (hD : D "NOTIFY_RESPONDER" = Except.ok msg) :
    actionsOf (execute_defense_protocol_with D latency_ms human_status)
      = ["NOTIFY_RESPONDER"] ∧
    (actionsOf (execute_defense_protocol_with D latency_ms human_status)).count
        "NOTIFY_RESPONDER" = 1 := by
  rw [exec_with_mercy D hl hs hD]
  exact ⟨rfl, rfl⟩

/-- Witness for `mercy_notifies_exactly_once` with a dispatcher that reports
failure. -/
theorem mercy_notifies_exactly_once_witness :
    actionsOf
        (execute_defense_protocol_with
          (fun _ => Except.ok "INTERDICTION FAILED: no display") 700 "FATIGUE_RISK")
      = ["NOTIFY_RESPONDER"] ∧
    (actionsOf
        (execute_defense_protocol_with
          (fun _ => Except.ok "INTERDICTION FAILED: no display") 700 "FATIGUE_RISK")).count
        "NOTIFY_RESPONDER" = 1 :=
  mercy_notifies_exactly_once (fun _ => Except.ok "INTERDICTION FAILED: no display")
    700 "FATIGUE_RISK" "INTERDICTION FAILED: no display" (by norm_num) rfl rfl

/-- C6: when the dispatcher reports failure during a MERCY execution, the
reported message is recorded in the returned record (interpolated into the
MERCY status string), the action list is still the full singleton sequence,
and the protocol of the record is still MERCY. -/
theorem dispatch_failure_keeps_mercy (D : String → Except String String)
    (latency_ms : ℚ) (human_status msg : String) (hl : latency_ms > 500)
    (hs : human_status = "FATIGUE_RISK")
    (hD : D "NOTIFY_RESPONDER" = Except.ok msg) :
    execute_defense_protocol_with D latency_ms human_status
      = Except.ok (mercyMsg msg, ["NOTIFY_RESPONDER"]) ∧
    recoverProtocol (execute_defense_protocol_with D latency_ms human_status)
      = some Protocol.MERCY := by
  rw [exec_with_mercy D hl hs hD]
  exact ⟨rfl, recoverProtocol_mercyMsg msg _⟩

/-- Witness for `dispatch_failure_keeps_mercy` with a dispatcher that
reports failure. -/
theorem dispatch_failure_keeps_mercy_witness :
    execute_defense_protocol_with
        (fun _ => Except.ok "INTERDICTION FAILED: responder UI offline")
        760 "FATIGUE_RISK"
      = Except.ok (mercyMsg "INTERDICTION FAILED: responder UI offline",
          ["NOTIFY_RESPONDER"]) ∧
    recoverProtocol
        (execute_defense_protocol_with
          (fun _ => Except.ok "INTERDICTION FAILED: responder UI offline")
          760 "FATIGUE_RISK")
      = some Protocol.MERCY :=
  dispatch_failure_keeps_mercy
    (fun _ => Except.ok "INTERDICTION FAILED: responder UI offline")
    760 "FATIGUE_RISK" "INTERDICTION FAILED: responder UI offline"
    (by norm_num) rfl rfl

/-- C7: every execution that does not select MERCY (latency within threshold,
or availability not FATIGUE_RISK) dispatches no interdiction action: the
returned record has an empty action list, its only content the status string,
and the protocol recovered from it is WATCH or PAGE. -/
theorem watch_page_dispatch_nothing (D : String → Except String String)
    (latency_ms : ℚ) (human_status : String)
    (h : latency_ms ≤ 500 ∨ human_status ≠ "FATIGUE_RISK") :
    (∃ out, execute_defense_protocol_with D latency_ms human_status
        = Except.ok (out, []) ∧ (out = watchMsg ∨ out = pageMsg)) ∧
    actionsOf (execute_defense_protocol_with D latency_ms human_status) = [] ∧
    (recoverProtocol (execute_defense_protocol_with D latency_ms human_status)
        = some Protocol.WATCH ∨
      recoverProtocol (execute_defense_protocol_with D latency_ms human_status)
        = some Protocol.PAGE) := by
  obtain ⟨out, hout, hcase⟩ := exec_with_nonmercy D h
  rw [hout]
  rcases hcase with ho | ho <;> subst ho
  · exact ⟨⟨watchMsg, rfl, Or.inl rfl⟩, rfl, Or.inl (recoverProtocol_watchMsg [])⟩
  · exact ⟨⟨pageMsg, rfl, Or.inr rfl⟩, rfl, Or.inr (recoverProtocol_pageMsg [])⟩

/-- Witness for `watch_page_dispatch_nothing` at latency 600 with
availability AVAILABLE (the PAGE case). -/
theorem watch_page_dispatch_nothing_witness :
    actionsOf
        (execute_defense_protocol_with (fun _ => Except.ok "ok") 600 "AVAILABLE")
      = [] :=
  (watch_page_dispatch_nothing (fun _ => Except.ok "ok") 600 "AVAILABLE"
      (Or.inr (by decide))).2.1

/-- C10: for latency above the threshold and a status string that is neither
exactly FATIGUE_RISK nor exactly AVAILABLE, the decision falls through to
WATCH with no actions, rather than failing or escalating. -/
theorem unknown_status_falls_to_watch (D : String → Except String String)
    (latency_ms : ℚ) (human_status : String) (hl : latency_ms > 500)
    (h1 : human_status ≠ "FATIGUE_RISK") (h2 : human_status ≠ "AVAILABLE") :
    execute_defense_protocol_with D latency_ms human_status
      = Except.ok (watchMsg, []) ∧
    recoverProtocol (execute_defense_protocol_with D latency_ms human_status)
      = some Protocol.WATCH := by
  rw [exec_with_watch_other D hl h1 h2]
  exact ⟨rfl, recoverProtocol_watchMsg []⟩

/-- Witness for `unknown_status_falls_to_watch` at latency 900 with the
lowercase status string. -/
theorem unknown_status_falls_to_watch_witness :
    execute_defense_protocol_with (fun _ => Except.ok "ok") 900 "fatigue_risk"
      = Except.ok (watchMsg, []) :=
  (unknown_status_falls_to_watch (fun _ => Except.ok "ok") 900 "fatigue_risk"
      (by norm_num) (by decide) (by decide)).1

/-- C2 counterexample: at latency -5.0 the function does not refuse to
classify; it assigns the WATCH protocol (the claim says an InvalidInput
refusal with no protocol assigned). -/
theorem negative_latency_cex :
    execute_defense_protocol idleEnv (-5) "AVAILABLE"
      = Except.ok (watchMsg, []) ∧
    recoverProtocol (execute_defense_protocol idleEnv (-5) "AVAILABLE")
      = some Protocol.WATCH := by
  have h : execute_defense_protocol idleEnv (-5) "AVAILABLE"
      = Except.ok (watchMsg, []) :=
    exec_with_watch_low (active_ui_interdiction idleEnv) "AVAILABLE" (by norm_num)
  exact ⟨h, by rw [h]; exact recoverProtocol_watchMsg []⟩

/-- C2 amended: for every negative latency the function performs no input
validation; it returns the WATCH protocol with an empty action list,
whatever the availability status. -/
theorem negative_latency_returns_watch (env : OSEnv) (latency_ms : ℚ)
    (human_status : String) (h : latency_ms < 0) :
    execute_defense_protocol env latency_ms human_status
      = Except.ok (watchMsg, []) ∧
    recoverProtocol (execute_defense_protocol env latency_ms human_status)
      = some Protocol.WATCH := by
  have hw : execute_defense_protocol env latency_ms human_status
      = Except.ok (watchMsg, []) :=
    exec_with_watch_low (active_ui_interdiction env) human_status
      (le_of_lt (lt_trans h (by norm_num)))
  exact ⟨hw, by rw [hw]; exact recoverProtocol_watchMsg []⟩

/-- Witness for `negative_latency_returns_watch` at latency -5.0. -/
theorem negative_latency_returns_watch_witness :
    execute_defense_protocol idleEnv (-5) "FATIGUE_RISK"
      = Except.ok (watchMsg, []) :=
  (negative_latency_returns_watch idleEnv (-5) "FATIGUE_RISK" (by norm_num)).1

/-- C3 counterexample: on the MERCY path the decision function itself
dispatches an interdiction action (its trace is the nonempty list
holding NOTIFY_RESPONDER), so protocol selection is not free of action
dispatch. -/
theorem decision_dispatches_itself_cex :
    actionsOf (execute_defense_protocol idleEnv 600 "FATIGUE_RISK")
      = ["NOTIFY_RESPONDER"] ∧
    actionsOf (execute_defense_protocol idleEnv 600 "FATIGUE_RISK") ≠ [] := by
  have h : execute_defense_protocol idleEnv 600 "FATIGUE_RISK"
      = Except.ok
          (mercyMsg "INTERDICTION SUCCESS: Fatigue notification delivered to responder UI.",
            ["NOTIFY_RESPONDER"]) :=
    exec_with_mercy (active_ui_interdiction idleEnv) (by norm_num) rfl rfl
  rw [h]
  exact ⟨rfl, by decide⟩

/-- C3 amended: the decision function dispatches nothing when the selected
protocol is WATCH or PAGE, but on the MERCY path it dispatches
NOTIFY_RESPONDER itself: selection and action dispatch are not separated
into distinct components in the source. -/
theorem dispatch_trace_of_decision (D : String → Except String String)
    (latency_ms : ℚ) (human_status msg : String)
    (hD : D "NOTIFY_RESPONDER" = Except.ok msg) :
    ((latency_ms ≤ 500 ∨ human_status ≠ "FATIGUE_RISK") →
      actionsOf (execute_defense_protocol_with D latency_ms human_status) = []) ∧
    (latency_ms > 500 → human_status = "FATIGUE_RISK" →
      actionsOf (execute_defense_protocol_with D latency_ms human_status)
        = ["NOTIFY_RESPONDER"]) := by
  constructor
  · intro h
    obtain ⟨out, hout, _⟩ := exec_with_nonmercy D h
    rw [hout]
    rfl
  · intro hl hs
    rw [exec_with_mercy D hl hs hD]
    rfl

/-- Witness for `dispatch_trace_of_decision` at latency 600 with
availability FATIGUE_RISK. -/
theorem dispatch_trace_of_decision_witness :
    actionsOf
        (execute_defense_protocol_with (fun _ => Except.ok "ok") 600 "FATIGUE_RISK")
      = ["NOTIFY_RESPONDER"] :=
  (dispatch_trace_of_decision (fun _ => Except.ok "ok") 600 "FATIGUE_RISK" "ok"
      rfl).2 (by norm_num) rfl

/-- C8: for every local hour 0-23, the Availability Oracle returns exactly
one of FATIGUE_RISK and AVAILABLE, and it returns FATIGUE_RISK precisely when
the hour lies in the wrapping rest window (hour ≥ 23 or hour < 7); in
particular hour 23 is FATIGUE_RISK and hour 7 is AVAILABLE. -/
theorem availability_rest_window (current_hour : Nat) (hh : current_hour < 24) :
    (assess_human_cost current_hour = "FATIGUE_RISK" ∨
      assess_human_cost current_hour = "AVAILABLE") ∧
    ¬(assess_human_cost current_hour = "FATIGUE_RISK" ∧
      assess_human_cost current_hour = "AVAILABLE") ∧
    (assess_human_cost current_hour = "FATIGUE_RISK" ↔
      (23 ≤ current_hour ∨ current_hour < 7)) ∧
    assess_human_cost 23 = "FATIGUE_RISK" ∧
    assess_human_cost 7 = "AVAILABLE" := by
  clear hh
  unfold assess_human_cost
  by_cases h : 23 ≤ current_hour ∨ current_hour < 7 <;> simp [h]

/-- Witness for `availability_rest_window` at hour 23. -/
theorem availability_rest_window_witness :
    assess_human_cost 23 = "FATIGUE_RISK" ∧ assess_human_cost 7 = "AVAILABLE" :=
  (availability_rest_window 23 (by decide)).2.2.2

/-- C9 counterexample: in an environment where spawning the PowerShell
notification process fails, the Action Dispatcher called with
NOTIFY_RESPONDER raises (the exception propagates) instead of communicating
the failure through its returned result. -/
theorem dispatcher_raises_cex :
    active_ui_interdiction spawnFailEnv "NOTIFY_RESPONDER"
      = Except.error "FileNotFoundError: powershell not found" := rfl

/-- C9 amended: the Action Dispatcher never raises for CLOSE_STRESS_APPS or
LOCK_WORKSTATION (a failed workstation lock is caught and reported in the
returned message), but for NOTIFY_RESPONDER a failure to spawn the
notification process propagates as an exception. -/
theorem dispatcher_raise_behavior (env : OSEnv) (t : String) :
    (t = "CLOSE_STRESS_APPS" →
      active_ui_interdiction env t =
        Except.ok "INTERDICTION SUCCESS: Stress-inducing applications terminated. Sensory load reduced.") ∧
    (t = "LOCK_WORKSTATION" → env.rundll32_lock = Except.ok () →
      active_ui_interdiction env t =
        Except.ok "INTERDICTION SUCCESS: Workstation locked. Rest protocol enforced.") ∧
    (t = "LOCK_WORKSTATION" → ∀ e, env.rundll32_lock = Except.error e →
      active_ui_interdiction env t =
        Except.ok ("INTERDICTION FAILED: Could not lock workstation. Error: " ++ e)) ∧
    (t = "NOTIFY_RESPONDER" → ∀ e, env.powershell_popen = Except.error e →
      active_ui_interdiction env t = Except.error e) := by
  refine ⟨?_, ?_, ?_, ?_⟩
  · intro ht
    subst ht
    rfl
  · intro ht hlock
    subst ht
    simp [active_ui_interdiction, hlock]
  · intro ht e hlock
    subst ht
    simp [active_ui_interdiction, hlock]
  · intro ht e hpopen
    subst ht
    simp [active_ui_interdiction, hpopen]

/-- Witness for `dispatcher_raise_behavior`: a lock failure is caught and
reported via the returned message. -/
theorem dispatcher_raise_behavior_witness :
    active_ui_interdiction ⟨Except.error "WinError 1400", Except.ok ()⟩
        "LOCK_WORKSTATION"
      = Except.ok
          ("INTERDICTION FAILED: Could not lock workstation. Error: "
            ++ "WinError 1400") :=
  (dispatcher_raise_behavior ⟨Except.error "WinError 1400", Except.ok ()⟩
      "LOCK_WORKSTATION").2.2.1 rfl "WinError 1400" rfl

end BlackglassSentinel
